import Mathlib

/-!
Verification development for the academic search tool
(`src/nanobot/agent/tools/academic.py`).

The tool aggregates three bibliographic providers (arXiv as the
"research" source, Semantic Scholar, OpenAlex) behind one `execute`
operation.  The embedding below translates the tool's pure logic
faithfully from the source:

* Python scalar payload values are modelled by `PyVal`
  (`None`, `int`, `str` — the only shapes the tool reads from payload
  fields it stores into a record).
* Each provider's HTTP call is modelled as a stub
  `String → Nat → Except String payload`: `Except.error` stands for a
  raised exception (transport fault, non-2xx via `raise_for_status`,
  or an unparseable body), `Except.ok` for a parsed payload.
* `execute` returns an `ExecResult`: the outcome (`Except.error` = the
  Python call raised; `Except.ok` = it returned a JSON envelope, which
  is either a success envelope or an `error` envelope) together with
  the list of adapter invocations `(method name, cap)` in call order,
  so that non-invocation of an adapter is provable.
* Machine integers do not overflow in any code path modelled here
  (Python ints are unbounded), so `Int`/`Nat` are used directly.
-/

/-- Python scalar values appearing in the payload fields the tool reads:
`None`, an integer, or a string. -/
inductive PyVal where
  | vNone
  | vInt (n : Int)
  | vStr (s : String)
deriving Repr, DecidableEq

/-- Python truthiness on `PyVal`: `None`, `0` and `""` are falsy. -/
def pyTruthy : PyVal → Bool
  | .vNone => false
  | .vInt n => n != 0
  | .vStr s => s != ""

/-- Python `a or b` (returns `a` when truthy, else `b`). -/
def pyOr (a b : PyVal) : PyVal := if pyTruthy a then a else b

/-- Python `dict.get(k)` on a JSON object modelled as an association list;
an absent key yields `None`. -/
def dictGet (d : List (String × PyVal)) (k : String) : PyVal :=
  match d.lookup k with
  | some v => v
  | none => .vNone

/-- ASCII whitespace, the characters matched by Python `str.strip()` /
the regex class `\s` on the ASCII range. -/
def pyIsSpace (c : Char) : Bool :=
  c == ' ' || c == '\t' || c == '\n' || c == '\r' || c == '\x0b' || c == '\x0c'

/-- Python `str.strip()` on the character list. -/
def stripList (l : List Char) : List Char :=
  ((l.dropWhile pyIsSpace).reverse.dropWhile pyIsSpace).reverse

/-- Collapse every maximal run of whitespace to a single space
(the effect of `re.sub(r"\s+", " ", ·)`); the flag records whether the
previous character was part of a whitespace run. -/
def collapseWSAux (prevSpace : Bool) : List Char → List Char
  | [] => []
  | c :: cs =>
    if pyIsSpace c then
      if prevSpace then collapseWSAux true cs
      else ' ' :: collapseWSAux true cs
    else c :: collapseWSAux false cs

/-- `_clean(s) = re.sub(r"\s+", " ", (s or "").strip())` from the source. -/
def pyClean (s : String) : String :=
  String.mk (collapseWSAux false (stripList s.data))

/-- `max(1, min(int(max_results), 20))` — the clamp applied to
`max_results` in `execute`. -/
def clampMR (n : Int) : Int := max 1 (min n 20)

/-- The common paper record produced by all three adapters
(the dict literal appended by each adapter). -/
structure PaperRecord where
  source : String
  title : PyVal
  authors : List PyVal
  year : PyVal
  published : PyVal
  abstract : PyVal
  url : PyVal
  pdf_url : PyVal
  doi : PyVal
  venue : PyVal
  citations : PyVal
deriving Repr, DecidableEq

/-- Parse a digit string the way `int()` accepts what `isdigit()`
admits: nonempty, all decimal digits. -/
def digitsToNat? (l : List Char) : Option Nat :=
  if !l.isEmpty && l.all (fun c => c.isDigit) then
    some (l.foldl (fun a c => a * 10 + (c.toNat - 48)) 0)
  else none

/-- Python `int(·)` applied to a string: optional leading minus sign then
decimal digits (the forms relevant to year values). -/
def pyStrToInt? (s : String) : Option Int :=
  match s.data with
  | '-' :: rest => (digitsToNat? rest).map (fun n => -(n : Int))
  | l => (digitsToNat? l).map (fun n => (n : Int))

/-- Python `int(y)` on a payload value: succeeds on integers and on
integer-shaped strings, raises (here: `none`) otherwise; `None` is
rejected before the conversion by the `y is not None` guard. -/
def pyIntOf : PyVal → Option Int
  | .vInt n => some n
  | .vStr s => pyStrToInt? s
  | .vNone => none

/-- `AcademicSearchTool._filter_year` from the source: identity when
`year_from` is falsy (`None` or `0`), otherwise keep exactly the records
whose `year` converts via `int()` to a value `≥ year_from`; a record
whose conversion raises is dropped by the `except: pass`. -/
def filter_year (results : List PaperRecord) (year_from : Option Int) :
    List PaperRecord :=
  match year_from with
  | none => results
  | some t =>
    if t = 0 then results
    else
      results.filter fun r =>
        match pyIntOf r.year with
        | some y => decide (t ≤ y)
        | none => false

/-- Check whether `pat` is an initial segment of `l` (Python
`str.startswith` on character lists). -/
def leadsWith : List Char → List Char → Bool
  | [], _ => true
  | _ :: _, [] => false
  | p :: ps, c :: cs => p == c && leadsWith ps cs

/-- Python `s.startswith(pre)`. -/
def pyStartsWith (s pre : String) : Bool := leadsWith pre.data s.data

/-- Check whether `pat` occurs as a contiguous subsequence of `l`. -/
def containsSeq (pat : List Char) : List Char → Bool
  | [] => pat.isEmpty
  | c :: cs => leadsWith pat (c :: cs) || containsSeq pat cs

/-- Worker for Python `str.replace` with a nonempty pattern: scan left to
right; on a match emit `rep` and skip the matched characters (`skip`
counts characters still to drop), else copy one character. -/
def replGo (pat rep : List Char) (skip : Nat) : List Char → List Char
  | [] => []
  | c :: cs =>
    match skip with
    | k + 1 => replGo pat rep k cs
    | 0 =>
      if leadsWith pat (c :: cs) then rep ++ replGo pat rep (pat.length - 1) cs
      else c :: replGo pat rep 0 cs

/-- Python `s.replace(pat, rep)`: every non-overlapping occurrence of
`pat`, scanned left to right, is replaced by `rep`.  The source only
calls it with the nonempty pattern `"https://doi.org/"`. -/
def pyStrReplace (s pat rep : String) : String :=
  match pat.data with
  | [] => s
  | _ :: _ => String.mk (replGo pat.data rep.data 0 s.data)

/-- DOI normalization from `_openalex` (source lines 255–257): a string
starting with the DOI URL prefix goes through
`doi.replace("https://doi.org/", "")`; everything else is unchanged. -/
def normalizeDoi (v : PyVal) : PyVal :=
  match v with
  | .vStr s =>
    if pyStartsWith s "https://doi.org/" then
      .vStr (pyStrReplace s "https://doi.org/" "")
    else .vStr s
  | v => v

/-- One `<entry>` of the arXiv Atom feed, as the fields `_arxiv` reads:
`findtext` results are `Option String` (`none` = element missing or
empty, for which `findtext`'s `default=""` / `or ""` yields `""`),
links carry optional `rel` and `href` attributes, `idText` is the
`<id>` element's text. -/
structure AtomEntry where
  title : Option String
  summary : Option String
  published : Option String
  authors : List (Option String)
  links : List (Option String × Option String)
  idText : Option String
deriving Repr, DecidableEq

/-- The link loop of `_arxiv`: the last `rel="alternate"` link's `href`
becomes `abs_url`, the last `rel="related"` link's `href` becomes
`pdf_url`; both start as `None`. -/
def arxivLinks (links : List (Option String × Option String)) :
    Option String × Option String :=
  links.foldl
    (fun acc l =>
      match l.1 with
      | some rel =>
        if rel = "alternate" then (l.2, acc.2)
        else if rel = "related" then (acc.1, l.2)
        else acc
      | none => acc)
    (none, none)

/-- The per-entry body of `_arxiv`'s parsing loop (source lines 143–181). -/
def parseArxivEntry (e : AtomEntry) : PaperRecord :=
  let title := pyClean (e.title.getD "")
  let summary := pyClean (e.summary.getD "")
  let published := String.mk ((e.published.getD "").data.take 10)
  let year : PyVal :=
    match digitsToNat? (published.data.take 4) with
    | some n => .vInt (n : Int)
    | none => .vNone
  let authors :=
    ((e.authors.map fun a => pyClean (a.getD "")).filter fun a => a ≠ "")
  let links := arxivLinks e.links
  let arxiv_id := pyClean (e.idText.getD "")
  { source := "research"
    title := .vStr title
    authors := authors.map PyVal.vStr
    year := year
    published := .vStr published
    abstract := .vStr summary
    url := .vStr
      (match links.1 with
       | some u => if u ≠ "" then u else arxiv_id
       | none => arxiv_id)
    pdf_url :=
      (match links.2 with
       | some u => .vStr u
       | none => .vNone)
    doi := .vNone
    venue := .vNone
    citations := .vNone }

/-- Parsing part of `_arxiv`: one record per feed entry, with no
client-side truncation (the source has no `[:max_results]` here). -/
def arxivRecords (entries : List AtomEntry) : List PaperRecord :=
  entries.map parseArxivEntry

/-- One element of a Semantic Scholar `authors` list. -/
structure S2Author where
  name : PyVal
deriving Repr, DecidableEq

/-- One item of the Semantic Scholar `data` list, as the fields
`_semantic_scholar` reads. -/
structure S2Item where
  title : PyVal
  year : PyVal
  authors : Option (List S2Author)
  venue : PyVal
  url : PyVal
  externalIds : Option (List (String × PyVal))
  citationCount : PyVal
  abstract : PyVal
deriving Repr, DecidableEq

/-- The per-item body of `_semantic_scholar`'s loop (source lines
204–224): truthy author names are kept, `doi` is
`externalIds.get("DOI") or externalIds.get("doi")`. -/
def s2Record (item : S2Item) : PaperRecord :=
  let authors := ((item.authors.getD []).filter fun a => pyTruthy a.name).map
    (fun a => a.name)
  let ext := item.externalIds.getD []
  let doi := pyOr (dictGet ext "DOI") (dictGet ext "doi")
  { source := "semantic_scholar"
    title := item.title
    authors := authors
    year := item.year
    published := .vNone
    abstract := item.abstract
    url := item.url
    pdf_url := .vNone
    doi := doi
    venue := item.venue
    citations := item.citationCount }

/-- Parsing part of `_semantic_scholar`: `data.get("data", [])` sliced to
`[:max_results]` and mapped. -/
def s2Records (items : List S2Item) (max_results : Nat) : List PaperRecord :=
  (items.take max_results).map s2Record

/-- An OpenAlex host source object (`primary_location.source`). -/
structure OASource where
  display_name : PyVal
  host_organization_lineage : PyVal
deriving Repr, DecidableEq

/-- An OpenAlex `primary_location`; `source` is `none` when the key is
absent or null (both are turned into `{}` by `or {}` in the source). -/
structure OALocation where
  source : Option OASource
deriving Repr, DecidableEq

/-- An OpenAlex nested author object. -/
structure OAAuthor where
  display_name : PyVal
deriving Repr, DecidableEq

/-- One element of an OpenAlex `authorships` list. -/
structure OAAuthorship where
  author : Option OAAuthor
deriving Repr, DecidableEq

/-- One OpenAlex work item, as the fields `_openalex` reads. -/
structure OAWork where
  title : PyVal
  publication_year : PyVal
  authorships : Option (List OAAuthorship)
  doi : PyVal
  id : PyVal
  primary_location : Option OALocation
  cited_by_count : PyVal
deriving Repr, DecidableEq

/-- The per-work body of `_openalex`'s loop (source lines 244–278):
truthy author display names are kept, `doi` is normalized, `url` is the
work id, `venue` the primary location's host source display name; the
`host_organization_lineage` intermediate is computed and discarded in
the source. -/
def oaRecord (w : OAWork) : PaperRecord :=
  let authorships := w.authorships.getD []
  let authors := authorships.filterMap fun a =>
    let au := match a.author with
      | some au => au.display_name
      | none => .vNone
    if pyTruthy au then some au else none
  let doi := normalizeDoi w.doi
  let landingSource := match w.primary_location with
    | some loc => loc.source
    | none => none
  let _primary_url := match landingSource with
    | some src => src.host_organization_lineage
    | none => PyVal.vNone
  { source := "openalex"
    title := w.title
    authors := authors
    year := w.publication_year
    published := .vNone
    abstract := .vNone
    url := w.id
    pdf_url := .vNone
    doi := doi
    venue :=
      (match landingSource with
       | some src => src.display_name
       | none => .vNone)
    citations := w.cited_by_count }

/-- Parsing part of `_openalex`: `data.get("results") or []` sliced to
`[:max_results]` and mapped. -/
def oaRecords (works : List OAWork) (max_results : Nat) : List PaperRecord :=
  (works.take max_results).map oaRecord

/-- The three provider HTTP calls, as stubs: `Except.error` is a raised
exception (transport fault, non-2xx status, unparseable payload),
`Except.ok` the parsed payload of a 2xx response. -/
structure Providers where
  arxiv : String → Nat → Except String (List AtomEntry)
  semantic_scholar : String → Nat → Except String (List S2Item)
  openalex : String → Nat → Except String (List OAWork)

/-- The JSON envelope `execute` serializes: a success envelope
`{query, source, count, results}` or an error envelope `{error}`. -/
inductive Envelope where
  | success (query : String) (src : String) (count : Nat)
      (results : List PaperRecord)
  | failure (error : String)
deriving Repr, DecidableEq

instance {ε α : Type} [DecidableEq ε] [DecidableEq α] :
    DecidableEq (Except ε α) := fun a b =>
  match a, b with
  | .error x, .error y =>
    if h : x = y then .isTrue (by rw [h])
    else .isFalse (by intro hh; cases hh; exact h rfl)
  | .ok x, .ok y =>
    if h : x = y then .isTrue (by rw [h])
    else .isFalse (by intro hh; cases hh; exact h rfl)
  | .error _, .ok _ => .isFalse (by intro hh; cases hh)
  | .ok _, .error _ => .isFalse (by intro hh; cases hh)

/-- Result of one `execute` call: the outcome (`Except.error` = the call
raised) and the adapter invocations `(method, cap)` in call order. -/
structure ExecResult where
  out : Except String Envelope
  calls : List (String × Nat)
deriving Repr, DecidableEq

/-- `AcademicSearchTool.execute` (source lines 67–110): clean the query,
reject an empty one with an error envelope; clamp `max_results`; under
`auto` run the depleting chain arXiv → Semantic Scholar → OpenAlex (a
later adapter only when `remain > 0`, with `cap = remain`); under an
explicit source call exactly that adapter; otherwise return the
unknown-source error envelope.  No adapter exception is caught, so any
`Except.error` from a stub propagates as the result of `execute`. -/
def execute (env : Providers) (query : String) (src : String)
    (max_results : Int) (year_from : Option Int) : ExecResult :=
  let q := pyClean query
  if q = "" then ⟨.ok (.failure "query is empty"), []⟩
  else
    let m : Int := clampMR max_results
    let cap : Nat := m.toNat
    if src = "auto" then
      match env.arxiv q cap with
      | .error e => ⟨.error e, [("_arxiv", cap)]⟩
      | .ok a =>
        let results := arxivRecords a
        let remain : Int := m - results.length
        if remain > 0 then
          match env.semantic_scholar q remain.toNat with
          | .error e => ⟨.error e, [("_arxiv", cap), ("_semantic_scholar", remain.toNat)]⟩
          | .ok ss =>
            let results2 := results ++ s2Records ss remain.toNat
            let remain2 : Int := m - results2.length
            if remain2 > 0 then
              match env.openalex q remain2.toNat with
              | .error e =>
                ⟨.error e,
                 [("_arxiv", cap), ("_semantic_scholar", remain.toNat),
                  ("_openalex", remain2.toNat)]⟩
              | .ok ww =>
                let final := filter_year (results2 ++ oaRecords ww remain2.toNat) year_from
                ⟨.ok (.success q "auto" final.length final),
                 [("_arxiv", cap), ("_semantic_scholar", remain.toNat),
                  ("_openalex", remain2.toNat)]⟩
            else
              let final := filter_year results2 year_from
              ⟨.ok (.success q "auto" final.length final),
               [("_arxiv", cap), ("_semantic_scholar", remain.toNat)]⟩
        else
          let final := filter_year results year_from
          ⟨.ok (.success q "auto" final.length final), [("_arxiv", cap)]⟩
    else if src = "research" then
      match env.arxiv q cap with
      | .error e => ⟨.error e, [("_arxiv", cap)]⟩
      | .ok a =>
        let final := filter_year (arxivRecords a) year_from
        ⟨.ok (.success q src final.length final), [("_arxiv", cap)]⟩
    else if src = "semantic_scholar" then
      match env.semantic_scholar q cap with
      | .error e => ⟨.error e, [("_semantic_scholar", cap)]⟩
      | .ok ss =>
        let final := filter_year (s2Records ss cap) year_from
        ⟨.ok (.success q src final.length final), [("_semantic_scholar", cap)]⟩
    else if src = "openalex" then
      match env.openalex q cap with
      | .error e => ⟨.error e, [("_openalex", cap)]⟩
      | .ok ww =>
        let final := filter_year (oaRecords ww cap) year_from
        ⟨.ok (.success q src final.length final), [("_openalex", cap)]⟩
    else ⟨.ok (.failure ("unknown source: " ++ src)), []⟩

/-- Remaining budget of the `auto` chain after the arXiv yield
(`remain = max_results - len(results)` with `m` the clamped budget). -/
def autoRemain1 (m : Int) (entries : List AtomEntry) : Int :=
  m - (arxivRecords entries).length

/-- Records accumulated by the `auto` chain after the Semantic Scholar
call (arXiv yield followed by the capped Semantic Scholar yield). -/
def autoAcc2 (m : Int) (entries : List AtomEntry) (items : List S2Item) :
    List PaperRecord :=
  arxivRecords entries ++ s2Records items (autoRemain1 m entries).toNat

/-- Remaining budget of the `auto` chain after the Semantic Scholar
call. -/
def autoRemain2 (m : Int) (entries : List AtomEntry) (items : List S2Item) :
    Int :=
  m - (autoAcc2 m entries items).length

/-- An Atom entry with every element and attribute missing. -/
def emptyEntry : AtomEntry := ⟨none, none, none, [], [], none⟩

/-- A fully populated Semantic Scholar item. -/
def sampleS2Item : S2Item :=
  ⟨.vStr "Paper", .vInt 2020, some [⟨.vStr "Alice"⟩], .vStr "Venue",
   .vStr "http://x", some [("DOI", .vStr "10.1/abc")], .vInt 3, .vStr "Abs"⟩

/-- A Semantic Scholar item with every field absent or null. -/
def emptyS2Item : S2Item := ⟨.vNone, .vNone, none, .vNone, .vNone, none, .vNone, .vNone⟩

/-- An OpenAlex work with every field absent or null. -/
def emptyOAWork : OAWork := ⟨.vNone, .vNone, none, .vNone, .vNone, none, .vNone⟩

/-- An OpenAlex work whose `doi` carries the URL prefix once. -/
def exampleDoiWork : OAWork :=
  ⟨.vNone, .vNone, none, .vStr "https://doi.org/10.1/xyz", .vNone, none, .vNone⟩

/-- An OpenAlex work whose `doi` contains the URL prefix twice. -/
def doubledDoiWork : OAWork :=
  ⟨.vNone, .vNone, none, .vStr "https://doi.org/https://doi.org/10.1/xyz",
   .vNone, none, .vNone⟩

/-- An OpenAlex work whose `doi` is a bare identifier without the URL
prefix. -/
def plainDoiWork : OAWork :=
  ⟨.vNone, .vNone, none, .vStr "10.5/plain", .vNone, none, .vNone⟩

/-- A record with no year value. -/
def noYearRecord : PaperRecord :=
  ⟨"research", .vNone, [], .vNone, .vNone, .vNone, .vNone, .vNone, .vNone,
   .vNone, .vNone⟩

/-- Providers whose three stubs always succeed with fixed payloads. -/
def okProviders (entries : List AtomEntry) (items : List S2Item)
    (works : List OAWork) : Providers :=
  ⟨fun _ _ => .ok entries, fun _ _ => .ok items, fun _ _ => .ok works⟩

/-- Providers in which every call raises a transport fault. -/
def failAllEnv : Providers :=
  ⟨fun _ _ => .error "transport fault", fun _ _ => .error "transport fault",
   fun _ _ => .error "transport fault"⟩

/-- Providers in which only the arXiv call raises; the other two sources
survive and return payloads. -/
def arxivFailEnv : Providers :=
  ⟨fun _ _ => .error "transport fault", fun _ _ => .ok [sampleS2Item],
   fun _ _ => .ok []⟩

/-- Providers in which the arXiv call returns an empty feed and the
Semantic Scholar call raises. -/
def s2FailEnv : Providers :=
  ⟨fun _ _ => .ok [], fun _ _ => .error "transport fault", fun _ _ => .ok []⟩

/-- Providers in which the first two calls return payloads and the
OpenAlex call raises. -/
def oaFailEnv : Providers :=
  ⟨fun _ _ => .ok [], fun _ _ => .ok [], fun _ _ => .error "transport fault"⟩

/-- Providers whose arXiv stub honours the requested cap (it returns
`min 1 cap` entries), with fixed payloads for the other two sources. -/
def cappedProviders : Providers :=
  ⟨fun _ c => .ok (List.replicate (min 1 c) emptyEntry),
   fun _ _ => .ok [sampleS2Item], fun _ _ => .ok []⟩

/-- Providers whose arXiv stub ignores the requested cap and always
returns two entries. -/
def twoEntryEnv : Providers :=
  ⟨fun _ _ => .ok [emptyEntry, emptyEntry], fun _ _ => .ok [], fun _ _ => .ok []⟩

/-- Providers for a three-call auto chain: one arXiv entry, one Semantic
Scholar item, an empty OpenAlex page. -/
def chainEnv : Providers :=
  ⟨fun _ _ => .ok [emptyEntry], fun _ _ => .ok [sampleS2Item], fun _ _ => .ok []⟩

/-- Providers whose arXiv stub returns eight entries (a full default
budget) regardless of the requested cap. -/
def manyEntryEnv : Providers :=
  ⟨fun _ _ => .ok (List.replicate 8 emptyEntry), fun _ _ => .ok [],
   fun _ _ => .ok []⟩

theorem filter_year_some_ne_zero (rs : List PaperRecord) {t : Int}
    (ht : t ≠ 0) :
    filter_year rs (some t) =
      rs.filter fun r => (pyIntOf r.year).any fun y => decide (t ≤ y) := by
  simp only [filter_year, if_neg ht]
  congr 1
  funext r
  cases pyIntOf r.year <;> rfl

theorem filter_year_length_le (rs : List PaperRecord) (yf : Option Int) :
    (filter_year rs yf).length ≤ rs.length := by
  match yf with
  | none => exact Nat.le_refl _
  | some t =>
    by_cases ht : t = 0
    · simp [filter_year, ht]
    · rw [filter_year_some_ne_zero rs ht]
      exact List.length_filter_le _ _

theorem replGo_skip (pat rep : List Char) (k : Nat) (l : List Char) :
    replGo pat rep k l = replGo pat rep 0 (l.drop k) := by
  induction k generalizing l with
  | zero => simp
  | succ k ih =>
    cases l with
    | nil => simp [replGo]
    | cons c cs => simp [replGo, ih]

theorem replGo_no_occ (pat rep : List Char) (l : List Char)
    (h : containsSeq pat l = false) : replGo pat rep 0 l = l := by
  induction l with
  | nil => rfl
  | cons c cs ih =>
    simp only [containsSeq, Bool.or_eq_false_iff] at h
    simp [replGo, h.1, ih h.2]

theorem replGo_head_single (pat : List Char) (l : List Char)
    (hne : pat ≠ [])
    (hl : leadsWith pat l = true)
    (h : containsSeq pat (l.drop pat.length) = false) :
    replGo pat [] 0 l = l.drop pat.length := by
  cases pat with
  | nil => exact absurd rfl hne
  | cons p ps =>
    cases l with
    | nil => simp [leadsWith] at hl
    | cons c cs =>
      simp only [replGo, hl, if_pos, List.nil_append, List.length_cons,
        Nat.add_sub_cancel]
      rw [replGo_skip, replGo_no_occ]
      · simp [List.drop_succ_cons]
      · simpa [List.drop_succ_cons] using h

theorem pyStrReplace_single_occ (s pat : String) (p : Char) (ps : List Char)
    (hp : pat.data = p :: ps)
    (hl : leadsWith pat.data s.data = true)
    (h : containsSeq pat.data (s.data.drop pat.data.length) = false) :
    pyStrReplace s pat "" = String.mk (s.data.drop pat.data.length) := by
  unfold pyStrReplace
  rw [hp] at hl h ⊢
  exact congrArg String.mk (replGo_head_single (p :: ps) s.data
    (by simp) hl h)

/-- Claim C10: calling the year filter with threshold `0` (a falsy value,
like the absent threshold `None`) returns the input list unchanged, so
the strict exclusion of records with missing or non-numeric year does
not happen at threshold `0`. -/
theorem filter_year_falsy_identity (rs : List PaperRecord) :
    filter_year rs (some 0) = rs ∧ filter_year rs none = rs :=
  ⟨by simp [filter_year], rfl⟩

/-- Claim C6 counterexample: at the supplied threshold `0` the filter
keeps a record whose year is missing, because `if not year_from` treats
`0` like the absent threshold; the claim's strict exclusion "for every
supplied threshold value" fails there. -/
theorem filter_year_strict_cex :
    noYearRecord.year = PyVal.vNone ∧
    filter_year [noYearRecord] (some 0) = [noYearRecord] := by
  constructor <;> rfl

/-- Claim C6 (amended): the year filter is the identity when the
threshold is absent; for every nonzero supplied threshold it keeps
exactly the records whose year converts to an integer `≥ t`, and any
record with a missing or non-convertible year is excluded; at the
supplied threshold `0` it is the identity instead (the falsy check). -/
theorem filter_year_threshold_spec (rs : List PaperRecord) (t : Int)
    (r : PaperRecord) (ht : t ≠ 0) (hr : pyIntOf r.year = none) :
    filter_year rs (some t) =
      (rs.filter fun x => (pyIntOf x.year).any fun y => decide (t ≤ y)) ∧
    r ∉ filter_year rs (some t) ∧
    filter_year rs none = rs := by
  refine ⟨filter_year_some_ne_zero rs ht, ?_, rfl⟩
  rw [filter_year_some_ne_zero rs ht]
  intro hmem
  have := (List.mem_filter.1 hmem).2
  rw [hr] at this
  simp [Option.any] at this

theorem filter_year_threshold_spec_witness :
    (2000 : Int) ≠ 0 ∧ pyIntOf noYearRecord.year = none ∧
    (filter_year [noYearRecord] (some 2000) =
      ([noYearRecord].filter fun x =>
        (pyIntOf x.year).any fun y => decide ((2000 : Int) ≤ y)) ∧
     noYearRecord ∉ filter_year [noYearRecord] (some 2000) ∧
     filter_year [noYearRecord] none = [noYearRecord]) :=
  ⟨by decide, rfl,
   filter_year_threshold_spec [noYearRecord] 2000 noYearRecord (by decide) rfl⟩

/-- Claim C9 counterexample: monotonicity in the threshold fails across
`0`: raising the threshold from `-3` to `0` increases the kept count for
a record with a missing year, because threshold `0` is treated as "no
filter" while `-3` filters strictly. -/
theorem filter_year_monotone_cex :
    (-3 : Int) ≤ 0 ∧
    (filter_year [noYearRecord] (some (-3))).length <
      (filter_year [noYearRecord] (some 0)).length := by
  constructor <;> decide

/-- Claim C9 (amended): for every fixed record list and every pair of
nonnegative thresholds `t1 ≤ t2`, the count kept at `t2` is at most the
count kept at `t1` (the original claim fails only across a negative
threshold paired with the falsy threshold `0`). -/
theorem filter_year_monotone (rs : List PaperRecord) (t1 t2 : Int)
    (h0 : 0 ≤ t1) (h12 : t1 ≤ t2) :
    (filter_year rs (some t2)).length ≤ (filter_year rs (some t1)).length := by
  rcases eq_or_ne t1 0 with h1 | h1
  · subst h1
    have hid : filter_year rs (some 0) = rs := by simp [filter_year]
    rw [hid]
    rcases eq_or_ne t2 0 with h2 | h2
    · subst h2; rw [hid]
    · rw [filter_year_some_ne_zero rs h2]
      exact List.length_filter_le _ _
  · have h2 : t2 ≠ 0 := by omega
    rw [filter_year_some_ne_zero rs h1, filter_year_some_ne_zero rs h2]
    refine List.Sublist.length_le (List.monotone_filter_right rs ?_)
    intro r hr
    rcases Option.eq_none_or_eq_some (pyIntOf r.year) with hy | ⟨y, hy⟩
    · rw [hy] at hr
      simp [Option.any] at hr
    · rw [hy] at hr ⊢
      simp only [Option.any, decide_eq_true_eq] at hr ⊢
      omega

theorem filter_year_monotone_witness :
    (0 : Int) ≤ 1 ∧ (1 : Int) ≤ 5 ∧
    (filter_year [noYearRecord] (some 5)).length ≤
      (filter_year [noYearRecord] (some 1)).length :=
  ⟨by decide, by decide,
   filter_year_monotone [noYearRecord] 1 5 (by decide) (by decide)⟩

/-- Claim C8 counterexample: for the doi input
"https://doi.org/https://doi.org/10.1/xyz", stripping the URL prefix
would leave "https://doi.org/10.1/xyz", but the adapter yields
"10.1/xyz" because `str.replace` removes every occurrence of the
prefix, not only the leading one. -/
theorem doi_prefix_strip_cex :
    doubledDoiWork.doi = PyVal.vStr "https://doi.org/https://doi.org/10.1/xyz" ∧
    (oaRecord doubledDoiWork).doi = PyVal.vStr "10.1/xyz" ∧
    String.mk (("https://doi.org/https://doi.org/10.1/xyz" : String).data.drop 16) =
      "https://doi.org/10.1/xyz" ∧
    ("10.1/xyz" : String) ≠ "https://doi.org/10.1/xyz" := by
  refine ⟨rfl, ?_, ?_, ?_⟩ <;> decide

/-- Claim C8 (amended): for an OpenAlex work whose `doi` is a string
starting with "https://doi.org/", the adapter removes every occurrence
of that substring (`str.replace` semantics); this equals stripping the
leading prefix whenever the prefix does not occur again in the rest —
in particular "https://doi.org/10.1/xyz" normalizes to "10.1/xyz" — and
a doi string not starting with the prefix passes through unchanged. -/
theorem doi_normalization_spec (w w2 : OAWork) (s s2 : String)
    (hd : w.doi = .vStr s)
    (hpre : pyStartsWith s "https://doi.org/" = true)
    (hone : containsSeq ("https://doi.org/" : String).data (s.data.drop 16) = false)
    (hd2 : w2.doi = .vStr s2)
    (hpre2 : pyStartsWith s2 "https://doi.org/" = false) :
    (oaRecord w).doi = .vStr (pyStrReplace s "https://doi.org/" "") ∧
    (oaRecord w).doi = .vStr (String.mk (s.data.drop 16)) ∧
    (oaRecord w2).doi = .vStr s2 ∧
    (oaRecord exampleDoiWork).doi = .vStr "10.1/xyz" := by
  have hdoi : (oaRecord w).doi = normalizeDoi w.doi := rfl
  have hdoi2 : (oaRecord w2).doi = normalizeDoi w2.doi := rfl
  have hlen : ("https://doi.org/" : String).data.length = 16 := by decide
  have h1 : (oaRecord w).doi = .vStr (pyStrReplace s "https://doi.org/" "") := by
    rw [hdoi, hd]
    simp [normalizeDoi, hpre]
  refine ⟨h1, ?_, ?_, ?_⟩
  · rw [h1]
    have hrepl := pyStrReplace_single_occ s "https://doi.org/" 'h'
      ("ttps://doi.org/".data) (by decide) hpre (by rw [hlen]; exact hone)
    rw [hrepl, hlen]
  · rw [hdoi2, hd2]
    simp [normalizeDoi, hpre2]
  · decide

theorem doi_normalization_spec_witness :
    exampleDoiWork.doi = PyVal.vStr "https://doi.org/10.1/xyz" ∧
    pyStartsWith "https://doi.org/10.1/xyz" "https://doi.org/" = true ∧
    plainDoiWork.doi = PyVal.vStr "10.5/plain" ∧
    pyStartsWith "10.5/plain" "https://doi.org/" = false ∧
    (oaRecord exampleDoiWork).doi =
      .vStr (pyStrReplace "https://doi.org/10.1/xyz" "https://doi.org/" "") ∧
    (oaRecord exampleDoiWork).doi =
      .vStr (String.mk (("https://doi.org/10.1/xyz" : String).data.drop 16)) ∧
    (oaRecord plainDoiWork).doi = .vStr "10.5/plain" ∧
    (oaRecord exampleDoiWork).doi = .vStr "10.1/xyz" := by
  have h := doi_normalization_spec exampleDoiWork plainDoiWork
    "https://doi.org/10.1/xyz" "10.5/plain" rfl (by decide) (by decide) rfl
    (by decide)
  exact ⟨rfl, by decide, rfl, by decide, h.1, h.2.1, h.2.2.1, h.2.2.2⟩

/-- Claim C5 counterexample: a feed entry with no title, summary or
published date yields a research record whose `title`, `abstract` and
`published` are the empty string, not the missing marker — `findtext`'s
`default=""` plus `_clean` produce `""`. -/
theorem missing_marker_cex :
    emptyEntry.title = none ∧ emptyEntry.summary = none ∧
    emptyEntry.published = none ∧
    (parseArxivEntry emptyEntry).title = PyVal.vStr "" ∧
    (parseArxivEntry emptyEntry).abstract = PyVal.vStr "" ∧
    (parseArxivEntry emptyEntry).published = PyVal.vStr "" ∧
    PyVal.vStr "" ≠ PyVal.vNone := by
  refine ⟨rfl, rfl, rfl, ?_, ?_, ?_, ?_⟩ <;> decide

/-- Claim C5 (amended): every record carries its own adapter's `source`
enum value; the Semantic Scholar and OpenAlex adapters represent absent
payload fields by `None`; the research (arXiv) adapter represents an
absent title, abstract or published date by the empty string, its `url`
falls back to the cleaned id (the empty string when that is also
missing), its missing year and pdf link are `None`, and its doi, venue
and citations are always `None`. -/
theorem record_field_markers (e e0 : AtomEntry) (item item0 : S2Item)
    (w w0 : OAWork)
    (het : e.title = none) (hes : e.summary = none)
    (hep : e.published = none) (hel : e.links = []) (hei : e.idText = none)
    (hit : item.title = .vNone) (hiy : item.year = .vNone)
    (hia : item.abstract = .vNone) (hiu : item.url = .vNone)
    (hiv : item.venue = .vNone) (hic : item.citationCount = .vNone)
    (hix : item.externalIds = none)
    (hwt : w.title = .vNone) (hwy : w.publication_year = .vNone)
    (hwu : w.id = .vNone) (hwl : w.primary_location = none)
    (hwc : w.cited_by_count = .vNone) (hwd : w.doi = .vNone) :
    (parseArxivEntry e0).source = "research" ∧
    (s2Record item0).source = "semantic_scholar" ∧
    (oaRecord w0).source = "openalex" ∧
    (parseArxivEntry e).title = .vStr "" ∧
    (parseArxivEntry e).abstract = .vStr "" ∧
    (parseArxivEntry e).published = .vStr "" ∧
    (parseArxivEntry e).year = .vNone ∧
    (parseArxivEntry e).url = .vStr "" ∧
    (parseArxivEntry e).pdf_url = .vNone ∧
    (parseArxivEntry e0).doi = .vNone ∧
    (parseArxivEntry e0).venue = .vNone ∧
    (parseArxivEntry e0).citations = .vNone ∧
    (s2Record item).title = .vNone ∧
    (s2Record item).year = .vNone ∧
    (s2Record item).abstract = .vNone ∧
    (s2Record item).url = .vNone ∧
    (s2Record item).venue = .vNone ∧
    (s2Record item).citations = .vNone ∧
    (s2Record item).doi = .vNone ∧
    (s2Record item0).published = .vNone ∧
    (s2Record item0).pdf_url = .vNone ∧
    (oaRecord w).title = .vNone ∧
    (oaRecord w).year = .vNone ∧
    (oaRecord w).url = .vNone ∧
    (oaRecord w).venue = .vNone ∧
    (oaRecord w).citations = .vNone ∧
    (oaRecord w).doi = .vNone ∧
    (oaRecord w0).published = .vNone ∧
    (oaRecord w0).abstract = .vNone ∧
    (oaRecord w0).pdf_url = .vNone := by
  have at1 : (parseArxivEntry e).title = .vStr (pyClean (e.title.getD "")) := rfl
  have aa1 : (parseArxivEntry e).abstract = .vStr (pyClean (e.summary.getD "")) := rfl
  have ap1 : (parseArxivEntry e).published =
      .vStr (String.mk ((e.published.getD "").data.take 10)) := rfl
  have ay1 : (parseArxivEntry e).year =
      (match digitsToNat?
          ((String.mk ((e.published.getD "").data.take 10)).data.take 4) with
        | some n => PyVal.vInt (n : Int)
        | none => PyVal.vNone) := rfl
  have au1 : (parseArxivEntry e).url =
      .vStr (match (arxivLinks e.links).1 with
             | some u => if u ≠ "" then u else pyClean (e.idText.getD "")
             | none => pyClean (e.idText.getD "")) := rfl
  have af1 : (parseArxivEntry e).pdf_url =
      (match (arxivLinks e.links).2 with
       | some u => PyVal.vStr u
       | none => PyVal.vNone) := rfl
  have st1 : (s2Record item).title = item.title := rfl
  have sy1 : (s2Record item).year = item.year := rfl
  have sa1 : (s2Record item).abstract = item.abstract := rfl
  have su1 : (s2Record item).url = item.url := rfl
  have sv1 : (s2Record item).venue = item.venue := rfl
  have sc1 : (s2Record item).citations = item.citationCount := rfl
  have sd1 : (s2Record item).doi =
      pyOr (dictGet (item.externalIds.getD []) "DOI")
        (dictGet (item.externalIds.getD []) "doi") := rfl
  have ot1 : (oaRecord w).title = w.title := rfl
  have oy1 : (oaRecord w).year = w.publication_year := rfl
  have ou1 : (oaRecord w).url = w.id := rfl
  have ov1 : (oaRecord w).venue =
      (match (match w.primary_location with
              | some loc => loc.source
              | none => none) with
       | some src => src.display_name
       | none => PyVal.vNone) := rfl
  have oc1 : (oaRecord w).citations = w.cited_by_count := rfl
  have od1 : (oaRecord w).doi = normalizeDoi w.doi := rfl
  refine ⟨rfl, rfl, rfl, ?_, ?_, ?_, ?_, ?_, ?_, rfl, rfl, rfl,
    ?_, ?_, ?_, ?_, ?_, ?_, ?_, rfl, rfl, ?_, ?_, ?_, ?_, ?_, ?_, rfl, rfl, rfl⟩
  · rw [at1, het]; decide
  · rw [aa1, hes]; decide
  · rw [ap1, hep]; decide
  · rw [ay1, hep]; decide
  · rw [au1, hel, hei]; decide
  · rw [af1, hel]; decide
  · rw [st1, hit]
  · rw [sy1, hiy]
  · rw [sa1, hia]
  · rw [su1, hiu]
  · rw [sv1, hiv]
  · rw [sc1, hic]
  · rw [sd1, hix]; decide
  · rw [ot1, hwt]
  · rw [oy1, hwy]
  · rw [ou1, hwu]
  · rw [ov1, hwl]
  · rw [oc1, hwc]
  · rw [od1, hwd]; decide

theorem record_field_markers_witness :
    (parseArxivEntry emptyEntry).title = PyVal.vStr "" ∧
    (s2Record emptyS2Item).doi = PyVal.vNone ∧
    (oaRecord emptyOAWork).venue = PyVal.vNone := by
  have h := record_field_markers emptyEntry emptyEntry emptyS2Item sampleS2Item
    emptyOAWork emptyOAWork rfl rfl rfl rfl rfl rfl rfl rfl rfl rfl rfl rfl
    rfl rfl rfl rfl rfl rfl
  exact ⟨h.2.2.2.1, h.2.2.2.2.2.2.2.2.2.2.2.2.2.2.2.2.2.2.1,
    h.2.2.2.2.2.2.2.2.2.2.2.2.2.2.2.2.2.2.2.2.2.2.2.2.2.1⟩

/-- Claim C7: `max_results` is clamped to `[1, 20]` before use — 50
becomes 20, 0 becomes 1, every integer lands in `[1, 20]` — and the
clamped value is the cap passed to the adapter call of each explicit
source policy and to the first adapter of the `auto` chain. -/
theorem max_results_clamped (n : Int) (env : Providers) (q : String)
    (mr : Int) (yf : Option Int) (hq : pyClean q ≠ "") :
    clampMR 50 = 20 ∧ clampMR 0 = 1 ∧
    (1 ≤ clampMR n ∧ clampMR n ≤ 20) ∧
    (execute env q "research" mr yf).calls = [("_arxiv", (clampMR mr).toNat)] ∧
    (execute env q "semantic_scholar" mr yf).calls =
      [("_semantic_scholar", (clampMR mr).toNat)] ∧
    (execute env q "openalex" mr yf).calls =
      [("_openalex", (clampMR mr).toNat)] ∧
    (execute env q "auto" mr yf).calls.head? =
      some ("_arxiv", (clampMR mr).toNat) := by
  refine ⟨by decide, by decide, ?_, ?_, ?_, ?_, ?_⟩
  · constructor
    · exact le_max_left _ _
    · simp only [clampMR]
      rcases le_total n 20 with h | h
      · rw [min_eq_left h]
        exact max_le (by norm_num) h
      · rw [min_eq_right h]
        norm_num
  · cases ha : env.arxiv (pyClean q) (clampMR mr).toNat <;>
      simp [execute, hq, ha]
  · cases hs : env.semantic_scholar (pyClean q) (clampMR mr).toNat <;>
      simp [execute, hq, hs]
  · cases ho : env.openalex (pyClean q) (clampMR mr).toNat <;>
      simp [execute, hq, ho]
  · cases ha : env.arxiv (pyClean q) (clampMR mr).toNat with
    | error e => simp [execute, hq, ha]
    | ok a =>
      simp only [execute, if_neg hq]
      rw [if_pos trivial, ha]
      dsimp only
      repeat' split
      all_goals rfl

theorem max_results_clamped_witness :
    pyClean "q" ≠ "" ∧
    (clampMR 50 = 20 ∧ clampMR 0 = 1 ∧
     (1 ≤ clampMR 7 ∧ clampMR 7 ≤ 20) ∧
     (execute (okProviders [] [] []) "q" "research" 50 none).calls =
       [("_arxiv", (clampMR 50).toNat)] ∧
     (execute (okProviders [] [] []) "q" "semantic_scholar" 50 none).calls =
       [("_semantic_scholar", (clampMR 50).toNat)] ∧
     (execute (okProviders [] [] []) "q" "openalex" 50 none).calls =
       [("_openalex", (clampMR 50).toNat)] ∧
     (execute (okProviders [] [] []) "q" "auto" 50 none).calls.head? =
       some ("_arxiv", (clampMR 50).toNat)) :=
  ⟨by decide, max_results_clamped 7 (okProviders [] [] []) "q" 50 none (by decide)⟩

/-- Claim C3: under an explicit single-source policy, a raised failure of
that source's one adapter call is terminal for the request — `execute`
propagates the exception — and in particular it is not an empty success
envelope. -/
theorem single_source_failure_terminal (env : Providers) (q : String)
    (mr : Int) (yf : Option Int) (e : String) (hq : pyClean q ≠ "")
    (ha : env.arxiv (pyClean q) (clampMR mr).toNat = .error e)
    (hs : env.semantic_scholar (pyClean q) (clampMR mr).toNat = .error e)
    (ho : env.openalex (pyClean q) (clampMR mr).toNat = .error e) :
    (execute env q "research" mr yf).out = .error e ∧
    (execute env q "semantic_scholar" mr yf).out = .error e ∧
    (execute env q "openalex" mr yf).out = .error e ∧
    (execute env q "semantic_scholar" mr yf).out ≠
      .ok (.success (pyClean q) "semantic_scholar" 0 []) := by
  refine ⟨?_, ?_, ?_, ?_⟩
  · simp [execute, hq, ha]
  · simp [execute, hq, hs]
  · simp [execute, hq, ho]
  · simp [execute, hq, hs]

theorem single_source_failure_terminal_witness :
    pyClean "q" ≠ "" ∧
    failAllEnv.arxiv (pyClean "q") (clampMR 8).toNat = .error "transport fault" ∧
    ((execute failAllEnv "q" "research" 8 none).out = .error "transport fault" ∧
     (execute failAllEnv "q" "semantic_scholar" 8 none).out = .error "transport fault" ∧
     (execute failAllEnv "q" "openalex" 8 none).out = .error "transport fault" ∧
     (execute failAllEnv "q" "semantic_scholar" 8 none).out ≠
       .ok (.success (pyClean "q") "semantic_scholar" 0 [])) :=
  ⟨by decide, rfl,
   single_source_failure_terminal failAllEnv "q" 8 none "transport fault"
     (by decide) rfl rfl rfl⟩

/-- Claim C1 counterexample: under policy `auto` with an arXiv stub that
raises a transport fault while the other two stubs would succeed,
`execute` propagates the exception instead of absorbing it — the result
is not a non-error envelope counting the surviving sources — and the
remaining adapters are never invoked. -/
theorem auto_resilience_cex :
    (execute arxivFailEnv "q" "auto" 8 none).out = .error "transport fault" ∧
    (execute arxivFailEnv "q" "auto" 8 none).calls = [("_arxiv", 8)] := by
  constructor <;> rfl

/-- Claim C1 (amended): under the `auto` policy a failing adapter call is
not absorbed — there is no exception handling in `execute` — so the
first raised failure propagates as the result of the whole request and
the adapters after the failing one are not invoked. -/
theorem auto_failure_propagates (q : String) (mr : Int) (yf : Option Int)
    (e : String) (env1 env2 env3 : Providers)
    (as2 as3 : List AtomEntry) (ss3 : List S2Item)
    (hq : pyClean q ≠ "")
    (h1 : env1.arxiv (pyClean q) (clampMR mr).toNat = .error e)
    (h2a : env2.arxiv (pyClean q) (clampMR mr).toNat = .ok as2)
    (h2r : autoRemain1 (clampMR mr) as2 > 0)
    (h2s : env2.semantic_scholar (pyClean q)
      (autoRemain1 (clampMR mr) as2).toNat = .error e)
    (h3a : env3.arxiv (pyClean q) (clampMR mr).toNat = .ok as3)
    (h3r : autoRemain1 (clampMR mr) as3 > 0)
    (h3s : env3.semantic_scholar (pyClean q)
      (autoRemain1 (clampMR mr) as3).toNat = .ok ss3)
    (h3r2 : autoRemain2 (clampMR mr) as3 ss3 > 0)
    (h3o : env3.openalex (pyClean q)
      (autoRemain2 (clampMR mr) as3 ss3).toNat = .error e) :
    (execute env1 q "auto" mr yf).out = .error e ∧
    (execute env1 q "auto" mr yf).calls = [("_arxiv", (clampMR mr).toNat)] ∧
    (execute env2 q "auto" mr yf).out = .error e ∧
    (execute env2 q "auto" mr yf).calls =
      [("_arxiv", (clampMR mr).toNat),
       ("_semantic_scholar", (autoRemain1 (clampMR mr) as2).toNat)] ∧
    (execute env3 q "auto" mr yf).out = .error e ∧
    (execute env3 q "auto" mr yf).calls =
      [("_arxiv", (clampMR mr).toNat),
       ("_semantic_scholar", (autoRemain1 (clampMR mr) as3).toNat),
       ("_openalex", (autoRemain2 (clampMR mr) as3 ss3).toNat)] := by
  have hx1 : execute env1 q "auto" mr yf =
      ⟨.error e, [("_arxiv", (clampMR mr).toNat)]⟩ := by
    simp only [execute, if_neg hq]
    rw [if_pos trivial, h1]
  have hx2 : execute env2 q "auto" mr yf =
      ⟨.error e,
       [("_arxiv", (clampMR mr).toNat),
        ("_semantic_scholar", (autoRemain1 (clampMR mr) as2).toNat)]⟩ := by
    simp only [execute, if_neg hq]
    rw [if_pos trivial, h2a]
    dsimp only
    rw [if_pos (show clampMR mr - ((arxivRecords as2).length : Int) > 0 from h2r),
      show env2.semantic_scholar (pyClean q)
          (clampMR mr - ((arxivRecords as2).length : Int)).toNat = .error e
        from h2s]
    rfl
  have hx3 : execute env3 q "auto" mr yf =
      ⟨.error e,
       [("_arxiv", (clampMR mr).toNat),
        ("_semantic_scholar", (autoRemain1 (clampMR mr) as3).toNat),
        ("_openalex", (autoRemain2 (clampMR mr) as3 ss3).toNat)]⟩ := by
    simp only [execute, if_neg hq]
    rw [if_pos trivial, h3a]
    dsimp only
    rw [if_pos (show clampMR mr - ((arxivRecords as3).length : Int) > 0 from h3r),
      show env3.semantic_scholar (pyClean q)
          (clampMR mr - ((arxivRecords as3).length : Int)).toNat = .ok ss3
        from h3s]
    dsimp only
    rw [if_pos (show clampMR mr - ((arxivRecords as3 ++
            s2Records ss3 (clampMR mr -
              ((arxivRecords as3).length : Int)).toNat).length : Int) > 0
          from h3r2),
      show env3.openalex (pyClean q) (clampMR mr - ((arxivRecords as3 ++
            s2Records ss3 (clampMR mr -
              ((arxivRecords as3).length : Int)).toNat).length : Int)).toNat =
          .error e
        from h3o]
    rfl
  rw [hx1, hx2, hx3]
  exact ⟨rfl, rfl, rfl, rfl, rfl, rfl⟩

theorem auto_failure_propagates_witness :
    pyClean "q" ≠ "" ∧
    ((execute arxivFailEnv "q" "auto" 8 none).out = .error "transport fault" ∧
     (execute arxivFailEnv "q" "auto" 8 none).calls =
       [("_arxiv", (clampMR 8).toNat)] ∧
     (execute s2FailEnv "q" "auto" 8 none).out = .error "transport fault" ∧
     (execute s2FailEnv "q" "auto" 8 none).calls =
       [("_arxiv", (clampMR 8).toNat),
        ("_semantic_scholar", (autoRemain1 (clampMR 8) []).toNat)] ∧
     (execute oaFailEnv "q" "auto" 8 none).out = .error "transport fault" ∧
     (execute oaFailEnv "q" "auto" 8 none).calls =
       [("_arxiv", (clampMR 8).toNat),
        ("_semantic_scholar", (autoRemain1 (clampMR 8) []).toNat),
        ("_openalex", (autoRemain2 (clampMR 8) [] []).toNat)]) :=
  ⟨by decide,
   auto_failure_propagates "q" 8 none "transport fault" arxivFailEnv s2FailEnv
     oaFailEnv [] [] [] (by decide) rfl rfl (by decide) rfl rfl (by decide)
     rfl (by decide) rfl⟩

/-- Claim C4: under the `auto` policy the adapters run sequentially in
the fixed order arXiv → Semantic Scholar → OpenAlex (the call name
sequence is always a prefix of that chain); a later adapter runs only
when the remaining budget is positive and is called with
`cap = remaining`; when the first adapter already fills the clamped
budget the other two are not called at all and the results are its
(filtered) records; on a full chain the results are the concatenation
in chain order. -/
theorem auto_chain_spec (envO envD envC : Providers) (q : String)
    (mr : Int) (yf : Option Int) (asD asC : List AtomEntry)
    (ssC : List S2Item) (wwC : List OAWork)
    (hq : pyClean q ≠ "")
    (hDa : envD.arxiv (pyClean q) (clampMR mr).toNat = .ok asD)
    (hDfull : ((arxivRecords asD).length : Int) = clampMR mr)
    (hCa : envC.arxiv (pyClean q) (clampMR mr).toNat = .ok asC)
    (hCr1 : autoRemain1 (clampMR mr) asC > 0)
    (hCs : envC.semantic_scholar (pyClean q)
      (autoRemain1 (clampMR mr) asC).toNat = .ok ssC)
    (hCr2 : autoRemain2 (clampMR mr) asC ssC > 0)
    (hCo : envC.openalex (pyClean q)
      (autoRemain2 (clampMR mr) asC ssC).toNat = .ok wwC) :
    ((execute envO q "auto" mr yf).calls.map Prod.fst = ["_arxiv"] ∨
     (execute envO q "auto" mr yf).calls.map Prod.fst =
       ["_arxiv", "_semantic_scholar"] ∨
     (execute envO q "auto" mr yf).calls.map Prod.fst =
       ["_arxiv", "_semantic_scholar", "_openalex"]) ∧
    (execute envD q "auto" mr yf).calls = [("_arxiv", (clampMR mr).toNat)] ∧
    (execute envD q "auto" mr yf).out =
      .ok (.success (pyClean q) "auto"
        (filter_year (arxivRecords asD) yf).length
        (filter_year (arxivRecords asD) yf)) ∧
    (execute envC q "auto" mr yf).calls =
      [("_arxiv", (clampMR mr).toNat),
       ("_semantic_scholar", (autoRemain1 (clampMR mr) asC).toNat),
       ("_openalex", (autoRemain2 (clampMR mr) asC ssC).toNat)] ∧
    (execute envC q "auto" mr yf).out =
      .ok (.success (pyClean q) "auto"
        (filter_year (autoAcc2 (clampMR mr) asC ssC ++
          oaRecords wwC (autoRemain2 (clampMR mr) asC ssC).toNat) yf).length
        (filter_year (autoAcc2 (clampMR mr) asC ssC ++
          oaRecords wwC (autoRemain2 (clampMR mr) asC ssC).toNat) yf)) := by
  have horder :
      (execute envO q "auto" mr yf).calls.map Prod.fst = ["_arxiv"] ∨
      (execute envO q "auto" mr yf).calls.map Prod.fst =
        ["_arxiv", "_semantic_scholar"] ∨
      (execute envO q "auto" mr yf).calls.map Prod.fst =
        ["_arxiv", "_semantic_scholar", "_openalex"] := by
    cases ha : envO.arxiv (pyClean q) (clampMR mr).toNat with
    | error e => left; simp [execute, hq, ha]
    | ok a =>
      simp only [execute, if_neg hq]
      rw [if_pos trivial, ha]
      dsimp only
      by_cases hr1 : clampMR mr - ((arxivRecords a).length : Int) > 0
      · rw [if_pos hr1]
        cases hs : envO.semantic_scholar (pyClean q)
            (clampMR mr - ((arxivRecords a).length : Int)).toNat with
        | error e => right; left; rfl
        | ok ss =>
          dsimp only
          by_cases hr2 : clampMR mr - ((arxivRecords a ++
              s2Records ss (clampMR mr -
                ((arxivRecords a).length : Int)).toNat).length : Int) > 0
          · rw [if_pos hr2]
            cases ho : envO.openalex (pyClean q) (clampMR mr -
                ((arxivRecords a ++ s2Records ss (clampMR mr -
                  ((arxivRecords a).length : Int)).toNat).length : Int)).toNat with
            | error e => right; right; rfl
            | ok ww => right; right; rfl
          · rw [if_neg hr2]
            right; left; rfl
      · rw [if_neg hr1]
        left; rfl
  have hxD : execute envD q "auto" mr yf =
      ⟨.ok (.success (pyClean q) "auto"
         (filter_year (arxivRecords asD) yf).length
         (filter_year (arxivRecords asD) yf)),
       [("_arxiv", (clampMR mr).toNat)]⟩ := by
    simp only [execute, if_neg hq]
    rw [if_pos trivial, hDa]
    dsimp only
    rw [if_neg (show ¬(clampMR mr - ((arxivRecords asD).length : Int) > 0)
      by omega)]
  have hxC : execute envC q "auto" mr yf =
      ⟨.ok (.success (pyClean q) "auto"
         (filter_year (autoAcc2 (clampMR mr) asC ssC ++
           oaRecords wwC (autoRemain2 (clampMR mr) asC ssC).toNat) yf).length
         (filter_year (autoAcc2 (clampMR mr) asC ssC ++
           oaRecords wwC (autoRemain2 (clampMR mr) asC ssC).toNat) yf)),
       [("_arxiv", (clampMR mr).toNat),
        ("_semantic_scholar", (autoRemain1 (clampMR mr) asC).toNat),
        ("_openalex", (autoRemain2 (clampMR mr) asC ssC).toNat)]⟩ := by
    simp only [execute, if_neg hq]
    rw [if_pos trivial, hCa]
    dsimp only
    rw [if_pos (show clampMR mr - ((arxivRecords asC).length : Int) > 0
        from hCr1),
      show envC.semantic_scholar (pyClean q)
          (clampMR mr - ((arxivRecords asC).length : Int)).toNat = .ok ssC
        from hCs]
    dsimp only
    rw [if_pos (show clampMR mr - ((arxivRecords asC ++
            s2Records ssC (clampMR mr -
              ((arxivRecords asC).length : Int)).toNat).length : Int) > 0
          from hCr2),
      show envC.openalex (pyClean q) (clampMR mr - ((arxivRecords asC ++
            s2Records ssC (clampMR mr -
              ((arxivRecords asC).length : Int)).toNat).length : Int)).toNat =
          .ok wwC
        from hCo]
    rfl
  rw [hxD, hxC]
  exact ⟨horder, rfl, rfl, rfl, rfl⟩

theorem auto_chain_spec_witness :
    pyClean "q" ≠ "" ∧
    ((arxivRecords (List.replicate 8 emptyEntry)).length : Int) = clampMR 8 ∧
    (((execute failAllEnv "q" "auto" 8 none).calls.map Prod.fst =
        ["_arxiv"] ∨
      (execute failAllEnv "q" "auto" 8 none).calls.map Prod.fst =
        ["_arxiv", "_semantic_scholar"] ∨
      (execute failAllEnv "q" "auto" 8 none).calls.map Prod.fst =
        ["_arxiv", "_semantic_scholar", "_openalex"]) ∧
     (execute manyEntryEnv "q" "auto" 8 none).calls =
       [("_arxiv", (clampMR 8).toNat)] ∧
     (execute manyEntryEnv "q" "auto" 8 none).out =
       .ok (.success (pyClean "q") "auto"
         (filter_year (arxivRecords (List.replicate 8 emptyEntry)) none).length
         (filter_year (arxivRecords (List.replicate 8 emptyEntry)) none)) ∧
     (execute chainEnv "q" "auto" 8 none).calls =
       [("_arxiv", (clampMR 8).toNat),
        ("_semantic_scholar", (autoRemain1 (clampMR 8) [emptyEntry]).toNat),
        ("_openalex", (autoRemain2 (clampMR 8) [emptyEntry] [sampleS2Item]).toNat)] ∧
     (execute chainEnv "q" "auto" 8 none).out =
       .ok (.success (pyClean "q") "auto"
         (filter_year (autoAcc2 (clampMR 8) [emptyEntry] [sampleS2Item] ++
           oaRecords [] (autoRemain2 (clampMR 8) [emptyEntry]
             [sampleS2Item]).toNat) none).length
         (filter_year (autoAcc2 (clampMR 8) [emptyEntry] [sampleS2Item] ++
           oaRecords [] (autoRemain2 (clampMR 8) [emptyEntry]
             [sampleS2Item]).toNat) none))) :=
  ⟨by decide, by decide,
   auto_chain_spec failAllEnv manyEntryEnv chainEnv "q" 8 none
     (List.replicate 8 emptyEntry) [emptyEntry] [sampleS2Item] []
     (by decide) rfl (by decide) rfl (by decide) rfl (by decide) rfl⟩

theorem arxivRecords_length (entries : List AtomEntry) :
    (arxivRecords entries).length = entries.length := by
  simp [arxivRecords]

theorem s2Records_length_le (items : List S2Item) (cap : Nat) :
    (s2Records items cap).length ≤ cap := by
  simp only [s2Records, List.length_map, List.length_take]
  exact min_le_left _ _

theorem oaRecords_length_le (works : List OAWork) (cap : Nat) :
    (oaRecords works cap).length ≤ cap := by
  simp only [oaRecords, List.length_map, List.length_take]
  exact min_le_left _ _

theorem one_le_clampMR (n : Int) : 1 ≤ clampMR n := le_max_left _ _

/-- Claim C2 counterexample: with an arXiv stub whose feed contains two
entries although the request (policy `research`, `max_results = 1`,
cap 1) asked for one, the adapter returns both records — `_arxiv` has
no client-side `[:max_results]` truncation — and the final envelope
count 2 exceeds the clamped `max_results` 1. -/
theorem max_results_bound_cex :
    (execute twoEntryEnv "q" "research" 1 none).out =
      .ok (.success "q" "research" 2 (arxivRecords [emptyEntry, emptyEntry])) ∧
    (arxivRecords [emptyEntry, emptyEntry]).length = 2 ∧
    clampMR 1 = 1 ∧ ¬(2 ≤ 1) := by
  refine ⟨?_, ?_, ?_, ?_⟩ <;> decide

/-- Claim C2 (amended): the Semantic Scholar and OpenAlex adapters
return at most `cap` records for every payload; the arXiv adapter
returns one record per feed entry with no client-side truncation, so it
respects `cap` exactly when the feed contains at most `cap` entries
(which the `max_results` URL parameter requests of a conforming
provider); consequently, whenever the arXiv stub honours the requested
cap, every success envelope of `execute`, under every policy, satisfies
`len(results) ≤ clamped max_results` and its count equals
`len(results)`. -/
theorem max_results_bound (items : List S2Item) (works : List OAWork)
    (entries : List AtomEntry) (cap1 cap2 cap3 : Nat)
    (env : Providers) (q src : String) (mr : Int) (yf : Option Int)
    (qq ssrc : String) (c : Nat) (rs : List PaperRecord)
    (hent : entries.length ≤ cap3)
    (hconf : ∀ qs cc es, env.arxiv qs cc = .ok es → es.length ≤ cc)
    (hout : (execute env q src mr yf).out = .ok (.success qq ssrc c rs)) :
    (s2Records items cap1).length ≤ cap1 ∧
    (oaRecords works cap2).length ≤ cap2 ∧
    (arxivRecords entries).length ≤ cap3 ∧
    rs.length ≤ (clampMR mr).toNat ∧ c = rs.length := by
  refine ⟨s2Records_length_le items cap1, oaRecords_length_le works cap2,
    by rw [arxivRecords_length]; exact hent, ?_⟩
  have hm : 1 ≤ clampMR mr := one_le_clampMR mr
  by_cases hq : pyClean q = ""
  · simp [execute, hq] at hout
  · by_cases hA : src = "auto"
    · subst hA
      cases ha : env.arxiv (pyClean q) (clampMR mr).toNat with
      | error e => simp [execute, hq, ha] at hout
      | ok a =>
        have hlen : a.length ≤ (clampMR mr).toNat := hconf _ _ _ ha
        have hr1n : (arxivRecords a).length = a.length := arxivRecords_length a
        simp only [execute, if_neg hq] at hout
        rw [if_pos trivial, ha] at hout
        dsimp only at hout
        by_cases hr1 : clampMR mr - ((arxivRecords a).length : Int) > 0
        · rw [if_pos hr1] at hout
          cases hs : env.semantic_scholar (pyClean q)
              (clampMR mr - ((arxivRecords a).length : Int)).toNat with
          | error e => rw [hs] at hout; simp at hout
          | ok ss =>
            rw [hs] at hout
            dsimp only at hout
            have h2 := s2Records_length_le ss
              (clampMR mr - ((arxivRecords a).length : Int)).toNat
            by_cases hr2 : clampMR mr - ((arxivRecords a ++ s2Records ss
                (clampMR mr -
                  ((arxivRecords a).length : Int)).toNat).length : Int) > 0
            · rw [if_pos hr2] at hout
              cases ho : env.openalex (pyClean q) (clampMR mr -
                  ((arxivRecords a ++ s2Records ss (clampMR mr -
                    ((arxivRecords a).length : Int)).toNat).length : Int)).toNat with
              | error e => rw [ho] at hout; simp at hout
              | ok ww =>
                rw [ho] at hout
                dsimp only at hout
                simp only [Except.ok.injEq, Envelope.success.injEq] at hout
                obtain ⟨-, -, hc, hrs⟩ := hout
                subst hrs
                have h3 := oaRecords_length_le ww (clampMR mr -
                  ((arxivRecords a ++ s2Records ss (clampMR mr -
                    ((arxivRecords a).length : Int)).toNat).length : Int)).toNat
                refine ⟨le_trans (filter_year_length_le _ _) ?_, hc.symm⟩
                simp only [List.length_append] at h3 hr2 ⊢
                omega
            · rw [if_neg hr2] at hout
              dsimp only at hout
              simp only [Except.ok.injEq, Envelope.success.injEq] at hout
              obtain ⟨-, -, hc, hrs⟩ := hout
              subst hrs
              refine ⟨le_trans (filter_year_length_le _ _) ?_, hc.symm⟩
              simp only [List.length_append] at hr2 ⊢
              omega
        · rw [if_neg hr1] at hout
          dsimp only at hout
          simp only [Except.ok.injEq, Envelope.success.injEq] at hout
          obtain ⟨-, -, hc, hrs⟩ := hout
          subst hrs
          exact ⟨le_trans (filter_year_length_le _ _) (by omega), hc.symm⟩
    · by_cases hR : src = "research"
      · subst hR
        cases ha : env.arxiv (pyClean q) (clampMR mr).toNat with
        | error e => simp [execute, hq, ha] at hout
        | ok a =>
          have hlen : a.length ≤ (clampMR mr).toNat := hconf _ _ _ ha
          have hr1n : (arxivRecords a).length = a.length := arxivRecords_length a
          simp [execute, hq, ha] at hout
          obtain ⟨-, -, hc, hrs⟩ := hout
          subst hrs
          exact ⟨le_trans (filter_year_length_le _ _) (by omega), hc.symm⟩
      · by_cases hS : src = "semantic_scholar"
        · subst hS
          cases hs : env.semantic_scholar (pyClean q) (clampMR mr).toNat with
          | error e => simp [execute, hq, hs] at hout
          | ok ss =>
            simp [execute, hq, hs] at hout
            obtain ⟨-, -, hc, hrs⟩ := hout
            subst hrs
            exact ⟨le_trans (filter_year_length_le _ _)
              (s2Records_length_le _ _), hc.symm⟩
        · by_cases hO : src = "openalex"
          · subst hO
            cases ho : env.openalex (pyClean q) (clampMR mr).toNat with
            | error e => simp [execute, hq, ho] at hout
            | ok ww =>
              simp [execute, hq, ho] at hout
              obtain ⟨-, -, hc, hrs⟩ := hout
              subst hrs
              exact ⟨le_trans (filter_year_length_le _ _)
                (oaRecords_length_le _ _), hc.symm⟩
          · simp [execute, hq, hA, hR, hS, hO] at hout

theorem max_results_bound_witness :
    (s2Records [sampleS2Item] 1).length ≤ 1 ∧
    (oaRecords [] 1).length ≤ 1 ∧
    (arxivRecords [emptyEntry]).length ≤ 1 ∧
    [parseArxivEntry emptyEntry, s2Record sampleS2Item].length ≤
      (clampMR 8).toNat ∧
    2 = [parseArxivEntry emptyEntry, s2Record sampleS2Item].length :=
  max_results_bound [sampleS2Item] [] [emptyEntry] 1 1 1 cappedProviders
    "q" "auto" 8 none "q" "auto" 2
    [parseArxivEntry emptyEntry, s2Record sampleS2Item]
    (by decide)
    (by
      intro qs cc es h
      injection h with h'
      subst h'
      simp only [List.length_replicate]
      omega)
    (by decide)
